import Mathlib

/-!
Verification of the hedge-pair execution flow of the polyalphascan
repository.  The frontend trade modal (`frontend/components/trading/
BuyPairModal.tsx`) and the wallet hook (`frontend/hooks/useWallet.tsx`)
are embedded shallowly below; JS numbers are modelled by `ℚ` (the
properties proved only involve order comparisons at small literals), a
value that JS `parseFloat` turns into `NaN` is modelled by `none`, and
the JS falsy-coalescing `x || 0` is translated explicitly.  The backend
`/trading/buy-pair` executor is not part of the available sources; it is
modelled from the specification where a claim needs it, and those
definitions say so in their doc comments.
-/

namespace PolyAlphaScan

/-- Wallet balances, from `frontend/hooks/useWallet.tsx` (`WalletBalances`). -/
structure WalletBalances where
  pol : ℚ
  usdc_e : ℚ
deriving DecidableEq

/-- Wallet status, from `frontend/hooks/useWallet.tsx` (`WalletStatus`).
The TS field `exists` is a Lean keyword and is rendered `wallet_exists`. -/
structure WalletStatus where
  wallet_exists : Bool
  address : Option String
  unlocked : Bool
  balances : Option WalletBalances
  approvals_set : Bool
deriving DecidableEq

/-- The fields of `frontend/types/portfolio.ts` (`Portfolio`) that the
buy-pair modal reads; the remaining fields are display-only metadata the
modal never touches and are omitted from the embedding. -/
structure Portfolio where
  pair_id : String
  target_market_id : String
  target_question : String
  target_position : String
  target_price : ℚ
  cover_market_id : String
  cover_question : String
  cover_position : String
  cover_price : ℚ
deriving DecidableEq

/-- One leg's outcome inside a `TradeResult`
(`BuyPairModal.tsx`, interface `TradeResult`). -/
structure LegOutcome where
  split_tx : Option String
  clob_order_id : Option String
  error : Option String
deriving DecidableEq

/-- The consolidated trade result returned by the backend and consumed by
the modal (`BuyPairModal.tsx`, interface `TradeResult`); `warnings?` is an
optional array, modelled by `Option (List String)`. -/
structure TradeResult where
  success : Bool
  target : LegOutcome
  cover : LegOutcome
  total_spent : ℚ
  final_balances : WalletBalances
  warnings : Option (List String)
deriving DecidableEq

/-- The request body `handleBuy` posts to `/trading/buy-pair`
(`BuyPairModal.tsx`, lines 87–95). -/
structure BuyPairRequest where
  pair_id : String
  target_market_id : String
  target_position : String
  cover_market_id : String
  cover_position : String
  amount_per_position : ℚ
  skip_clob_sell : Bool
deriving DecidableEq

/-- `const MIN_AMOUNT = 5` — the Polymarket CLOB minimum order size. -/
def MIN_AMOUNT : ℚ := 5

/-- `const amountNum = parseFloat(amount) || 0`.  The argument is the
result of `parseFloat` on the input string: `none` models `NaN`, and the
`|| 0` coalescing maps both `NaN` and `0` to `0`. -/
def amountNum (parsed : Option ℚ) : ℚ :=
  match parsed with
  | none => 0
  | some x => if x = 0 then 0 else x

/-- `status?.balances?.usdc_e || 0` (`BuyPairModal.tsx`, line 70). -/
def usdceBalance (status : Option WalletStatus) : ℚ :=
  match status with
  | none => 0
  | some st =>
    match st.balances with
    | none => 0
    | some b => if b.usdc_e = 0 then 0 else b.usdc_e

/-- `const totalCost = amountNum * 2`. -/
def totalCost (a : ℚ) : ℚ := a * 2

/-- `const hasSufficientBalance = (status?.balances?.usdc_e || 0) >= totalCost`. -/
def hasSufficientBalance (status : Option WalletStatus) (a : ℚ) : Bool :=
  decide (usdceBalance status ≥ totalCost a)

/-- `const meetsMinimum = amountNum >= MIN_AMOUNT`. -/
def meetsMinimum (a : ℚ) : Bool :=
  decide (a ≥ MIN_AMOUNT)

/-- The Confirm Purchase button's guard,
`disabled={!hasSufficientBalance || !meetsMinimum}` (line 259). -/
def confirmDisabled (status : Option WalletStatus) (a : ℚ) : Bool :=
  !hasSufficientBalance status a || !meetsMinimum a

/-- The inline "Minimum $5 required" message is rendered exactly when
`!meetsMinimum && amountNum > 0` (line 224). -/
def minimumWarningShown (a : ℚ) : Bool :=
  !meetsMinimum a && decide (a > 0)

/-- The JSON body built by `handleBuy` (lines 87–95): every field copied
from the portfolio, the amount from the input, `skip_clob_sell: false`. -/
def buildBuyPairRequest (p : Portfolio) (a : ℚ) : BuyPairRequest :=
  { pair_id := p.pair_id
    target_market_id := p.target_market_id
    target_position := p.target_position
    cover_market_id := p.cover_market_id
    cover_position := p.cover_position
    amount_per_position := a
    skip_clob_sell := false }

/-- What `handleBuy` does before any network traffic: either it sets the
error and returns (the `!hasSufficientBalance` early return, lines 74–77),
or it enters `executing` and issues the fetch (lines 79–96). -/
inductive HandleBuyStart where
  | rejected (errMsg : String)
  | submitted (req : BuyPairRequest)
deriving DecidableEq

/-- The synchronous prefix of `handleBuy` (lines 73–96). -/
def handleBuyStart (status : Option WalletStatus) (p : Portfolio)
    (parsed : Option ℚ) : HandleBuyStart :=
  if !hasSufficientBalance status (amountNum parsed) then
    .rejected "Insufficient USDC.e balance"
  else
    .submitted (buildBuyPairRequest p (amountNum parsed))

/-- The trading network calls `handleBuy` issues: none on the early
return, exactly the one POST to `/trading/buy-pair` otherwise. -/
def handleBuyCalls (status : Option WalletStatus) (p : Portfolio)
    (parsed : Option ℚ) : List BuyPairRequest :=
  match handleBuyStart status p parsed with
  | .rejected _ => []
  | .submitted req => [req]

/-- How the awaited fetch can come back: `res.ok` with a parsed
`TradeResult`, an HTTP error (`!res.ok`, whose `data.detail` may be
absent), or a thrown network/parse failure. -/
inductive FetchOutcome where
  | ok (data : TradeResult)
  | httpError (detail : Option String)
  | networkFailure (msg : String)
deriving DecidableEq

/-- `type Step = 'unlock' | 'input' | 'executing' | 'success' | 'error'`. -/
inductive Step where
  | unlock
  | input
  | executing
  | success
  | error
deriving DecidableEq

/-- The step `handleBuy` settles into once the fetch resolves:
`setStep(data.success ? 'success' : 'error')` on an ok response
(line 105), `'error'` on a thrown error (line 108). -/
def settleStep (out : FetchOutcome) : Step :=
  match out with
  | .ok data => if data.success then .success else .error
  | .httpError _ => .error
  | .networkFailure _ => .error

/-- The error message `handleBuy` records when the fetch fails:
`data.detail || 'Trade failed'` re-thrown and caught (lines 101, 107). -/
def settleErrorMsg (out : FetchOutcome) : Option String :=
  match out with
  | .ok _ => none
  | .httpError detail =>
    match detail with
    | none => some "Trade failed"
    | some d => some (if d = "" then "Trade failed" else d)
  | .networkFailure msg => some msg

/-- `result.warnings?.length` as a truth value: an absent array and an
empty array are both falsy (lines 279, 291). -/
def hasWarnings (r : TradeResult) : Bool :=
  match r.warnings with
  | none => false
  | some l => !l.isEmpty

/-- The three user-visible outcome renderings of the modal. -/
inductive Presentation where
  | fullSuccess
  | partialSuccess
  | failed
deriving DecidableEq

/-- What the modal renders in a terminal step: the `step === 'success' &&
result` branch shows "Partial Success" when `result.warnings?.length` is
truthy and "Purchase Complete" otherwise (lines 276–291); the
`step === 'error'` branch shows "Trade Failed" (lines 335–343). -/
def present (step : Step) (result : Option TradeResult) : Option Presentation :=
  match step, result with
  | .success, some r => some (if hasWarnings r then .partialSuccess else .fullSuccess)
  | .success, none => none
  | .error, _ => some .failed
  | _, _ => none

/-- The React state the buy-pair modal keeps (`BuyPairModal.tsx`,
lines 38–46), restricted to the trade flow: the step, the parsed amount
input, the wallet status and loading flag from `useWallet`, the last
trade result, the error banner, and the in-flight request if any. -/
structure UiState where
  step : Step
  parsedAmount : Option ℚ
  walletStatus : Option WalletStatus
  walletLoading : Bool
  result : Option TradeResult
  errorMsg : Option String
  pending : Option BuyPairRequest
deriving DecidableEq

/-- `status?.unlocked` as a truth value (absent status is falsy). -/
def walletUnlocked (status : Option WalletStatus) : Bool :=
  match status with
  | none => false
  | some st => st.unlocked

/-- `const needsUnlock = !walletLoading && !status?.unlocked` (line 49). -/
def needsUnlock (s : UiState) : Bool :=
  !s.walletLoading && !walletUnlocked s.walletStatus

/-- The input form — and with it the amount field and the Confirm
Purchase button — is rendered exactly when
`step === 'input' && !walletLoading && !needsUnlock` (line 188). -/
def inputFormShown (s : UiState) : Bool :=
  decide (s.step = Step.input) && !s.walletLoading && !needsUnlock s

/-- The events that drive the modal: editing the amount field, clicking
Confirm Purchase, the buy-pair fetch resolving, clicking Try Again on
the error screen, and the wallet hook's periodic status refresh. -/
inductive UiEvent where
  | setAmount (parsed : Option ℚ)
  | clickConfirm
  | fetchResolved (out : FetchOutcome)
  | clickTryAgain
  | walletRefresh (st : Option WalletStatus)
deriving DecidableEq

/-- One step of the modal, returning the next state and the trading
network calls issued.  A disabled button does not fire its handler, the
fetch only resolves while a request is in flight, Try Again
(`setStep('input'); setError(null)`, line 355) is only offered on the
error screen, and the wallet refresh (`useWallet.tsx`, `refresh`) stores
the fetched status and clears the loading flag. -/
def uiStep (p : Portfolio) (s : UiState) (e : UiEvent) :
    UiState × List BuyPairRequest :=
  match e with
  | .setAmount parsed =>
    if inputFormShown s then ({ s with parsedAmount := parsed }, []) else (s, [])
  | .clickConfirm =>
    if inputFormShown s &&
        !confirmDisabled s.walletStatus (amountNum s.parsedAmount) then
      match handleBuyStart s.walletStatus p s.parsedAmount with
      | .rejected msg => ({ s with errorMsg := some msg }, [])
      | .submitted req =>
        ({ s with step := .executing, errorMsg := none, pending := some req },
         [req])
    else (s, [])
  | .fetchResolved out =>
    if decide (s.step = Step.executing) && s.pending.isSome then
      ({ s with
          step := settleStep out
          result := match out with | .ok data => some data | _ => s.result
          errorMsg := match out with | .ok _ => s.errorMsg | _ => settleErrorMsg out
          pending := none }, [])
    else (s, [])
  | .clickTryAgain =>
    if decide (s.step = Step.error) then
      ({ s with step := .input, errorMsg := none }, [])
    else (s, [])
  | .walletRefresh st =>
    ({ s with walletStatus := st, walletLoading := false }, [])

/-- A step is terminal when it is one of the outcome screens. -/
def isTerminal (st : Step) : Bool :=
  match st with
  | .success => true
  | .error => true
  | _ => false

/-! ### Backend engine, modelled from the spec

The handler behind `POST /trading/buy-pair` is not among the available
sources — only its frontend caller is.  The definitions below model it
from the specification (§4.2 Leg Executor, §4.3 Pair Orchestrator,
§4.4 Result Aggregator). -/

/-- Outcome of one external step (chain split or CLOB sell): a
transaction/order identifier on success, an error message on failure. -/
inductive StepResult where
  | ok (id : String)
  | err (msg : String)
deriving DecidableEq

/-- The external world one leg runs against: what the chain client's
split and the order-book client's sell would return. -/
structure LegEnv where
  splitResult : StepResult
  sellResult : StepResult
deriving DecidableEq

/-- Modelled from the spec: the Leg Executor (§4.2), missing from the
sources.  Split first; on split failure the leg terminates with that
error and no sell is attempted.  On split success, if the skip flag is
set the sell is omitted and is not a failure; otherwise the sell runs,
and a sell failure is reported as a leg failure with the split
transaction id retained. -/
def executeLeg (env : LegEnv) (skipSell : Bool) : LegOutcome :=
  match env.splitResult with
  | .err m => { split_tx := none, clob_order_id := none, error := some m }
  | .ok tx =>
    if skipSell then
      { split_tx := some tx, clob_order_id := none, error := none }
    else
      match env.sellResult with
      | .ok oid => { split_tx := some tx, clob_order_id := some oid, error := none }
      | .err m => { split_tx := some tx, clob_order_id := none, error := some m }

/-- The external world one pair execution runs against: both legs'
environments and the balances read back after execution. -/
structure EngineEnv where
  target : LegEnv
  cover : LegEnv
  finalBalances : WalletBalances
deriving DecidableEq

/-- Modelled from the spec: the Result Aggregator's warning rule (§4.4,
§8), missing from the sources — one warning per leg whose split
succeeded but whose sell failed. -/
def legWarning (legName side : String) (o : LegOutcome) : List String :=
  if o.split_tx.isSome && o.error.isSome then
    ["position not fully hedged - you are holding unsold " ++ side ++
      " tokens for " ++ legName]
  else []

/-- Modelled from the spec: a leg's contribution to `total_spent` (§4.3),
missing from the sources — the amount counts exactly when the leg's
split committed funds, regardless of the later sell outcome. -/
def legSpent (o : LegOutcome) (amount : ℚ) : ℚ :=
  if o.split_tx.isSome then amount else 0

/-- Modelled from the spec: the Pair Orchestrator and Result Aggregator
(§4.3–§4.4), missing from the sources.  Target is attempted before
cover, both legs are always attempted and recorded independently,
`success` holds exactly when neither leg has an error, `total_spent`
sums the committed legs' amounts, and the response's optional
`warnings` array is present exactly when some warning was emitted. -/
def executePair (req : BuyPairRequest) (env : EngineEnv) : TradeResult :=
  let t := executeLeg env.target req.skip_clob_sell
  let c := executeLeg env.cover req.skip_clob_sell
  let ws := legWarning "target" req.target_position t ++
            legWarning "cover" req.cover_position c
  { success := t.error.isNone && c.error.isNone
    target := t
    cover := c
    total_spent := legSpent t req.amount_per_position +
                   legSpent c req.amount_per_position
    final_balances := env.finalBalances
    warnings := if ws.isEmpty then none else some ws }

/-! ### Concrete sample values used by witnesses -/

/-- A concrete hedge-pair portfolio for witnesses. -/
def samplePortfolio : Portfolio :=
  { pair_id := "pair-1"
    target_market_id := "mkt-target"
    target_question := "Will X happen?"
    target_position := "YES"
    target_price := 4/10
    cover_market_id := "mkt-cover"
    cover_question := "Will Y happen?"
    cover_position := "NO"
    cover_price := 1/2 }

/-- A concrete unlocked wallet status with the given USDC.e balance. -/
def sampleStatus (bal : ℚ) : Option WalletStatus :=
  some { wallet_exists := true
         address := some "0xacct"
         unlocked := true
         balances := some { pol := 1, usdc_e := bal }
         approvals_set := true }

/-- A modal state sitting on the input form, wallet loaded and unlocked,
balance 100, amount 10 — ready to submit. -/
def sReady : UiState :=
  { step := .input, parsedAmount := some 10, walletStatus := sampleStatus 100
    walletLoading := false, result := none, errorMsg := none, pending := none }

/-- Like `sReady` but with amount 3, below the $5 minimum. -/
def sLowAmount : UiState :=
  { step := .input, parsedAmount := some 3, walletStatus := sampleStatus 100
    walletLoading := false, result := none, errorMsg := none, pending := none }

/-- Like `sReady` but with an unparsable (`NaN`) amount input. -/
def sNaN : UiState :=
  { step := .input, parsedAmount := none, walletStatus := sampleStatus 100
    walletLoading := false, result := none, errorMsg := none, pending := none }

/-- A modal state on the error screen after a failed trade. -/
def sErrScreen : UiState :=
  { step := .error, parsedAmount := some 10, walletStatus := sampleStatus 100
    walletLoading := false, result := none
    errorMsg := some "Trade failed", pending := none }

/-! ### Claims about the precondition checks -/

/-- C1: whenever `amount_per_position * 2` exceeds the account's USDC.e
balance, `handleBuy` sets the insufficient-balance error and returns
before issuing any network request to the trading endpoint. -/
theorem c1_insufficient_balance_rejected (status : Option WalletStatus)
    (p : Portfolio) (parsed : Option ℚ)
    (h : amountNum parsed * 2 > usdceBalance status) :
    handleBuyStart status p parsed = .rejected "Insufficient USDC.e balance" ∧
    handleBuyCalls status p parsed = [] := by
  have hb : hasSufficientBalance status (amountNum parsed) = false := by
    unfold hasSufficientBalance totalCost
    exact decide_eq_false (not_le.mpr h)
  constructor
  · simp [handleBuyStart, hb]
  · simp [handleBuyCalls, handleBuyStart, hb]

/-- Witness for C1 at balance 0 (absent status) and amount 10. -/
theorem c1_witness :
    amountNum (some 10) * 2 > usdceBalance none ∧
    (handleBuyStart none samplePortfolio (some 10) =
        .rejected "Insufficient USDC.e balance" ∧
      handleBuyCalls none samplePortfolio (some 10) = []) :=
  ⟨by norm_num [amountNum, usdceBalance],
    c1_insufficient_balance_rejected none samplePortfolio (some 10)
      (by norm_num [amountNum, usdceBalance])⟩

/-- C2: with the parsed amount below the $5 minimum, no event of the
modal issues a trading network call or enters the executing step — the
Confirm Purchase button is disabled, which is the only path by which an
execution can be initiated. -/
theorem c2_below_minimum_blocked (p : Portfolio) (s : UiState) (e : UiEvent)
    (hmin : amountNum s.parsedAmount < MIN_AMOUNT)
    (hstep : s.step ≠ Step.executing) :
    (uiStep p s e).2 = [] ∧ (uiStep p s e).1.step ≠ Step.executing := by
  have hmm : meetsMinimum (amountNum s.parsedAmount) = false := by
    unfold meetsMinimum
    exact decide_eq_false (not_le.mpr hmin)
  have hcd : confirmDisabled s.walletStatus (amountNum s.parsedAmount) = true := by
    simp [confirmDisabled, hmm]
  cases e with
  | setAmount parsed =>
    simp only [uiStep]
    split <;> exact ⟨rfl, hstep⟩
  | clickConfirm =>
    simp only [uiStep, hcd, Bool.not_true, Bool.and_false]
    simp [hstep]
  | fetchResolved out =>
    have hd : decide (s.step = Step.executing) = false := decide_eq_false hstep
    simp only [uiStep, hd, Bool.false_and]
    simp [hstep]
  | clickTryAgain =>
    simp only [uiStep]
    split
    · exact ⟨rfl, by simp⟩
    · exact ⟨rfl, hstep⟩
  | walletRefresh st =>
    exact ⟨rfl, hstep⟩

/-- Witness for C2: amount 3 on the input form, Confirm clicked. -/
theorem c2_witness :
    amountNum sLowAmount.parsedAmount < MIN_AMOUNT ∧
    sLowAmount.step ≠ Step.executing ∧
    ((uiStep samplePortfolio sLowAmount .clickConfirm).2 = [] ∧
      (uiStep samplePortfolio sLowAmount .clickConfirm).1.step ≠ Step.executing) :=
  ⟨by norm_num [sLowAmount, amountNum, MIN_AMOUNT], by decide,
    c2_below_minimum_blocked samplePortfolio sLowAmount .clickConfirm
      (by norm_num [sLowAmount, amountNum, MIN_AMOUNT]) (by decide)⟩

/-- A submitted `handleBuy` request is the one built by
`buildBuyPairRequest`, whose `skip_clob_sell` field is the literal
`false`. -/
theorem handleBuyStart_submitted_skip (status : Option WalletStatus)
    (p : Portfolio) (parsed : Option ℚ) (req : BuyPairRequest)
    (h : handleBuyStart status p parsed = .submitted req) :
    req.skip_clob_sell = false := by
  unfold handleBuyStart at h
  split at h
  · exact absurd h (by simp)
  · injection h with h
    rw [← h]
    rfl

/-- C9: every request the modal ever sends to `/trading/buy-pair` has
`skip_clob_sell = false` — split-only mode is never requested. -/
theorem c9_skip_clob_sell_always_false (p : Portfolio) (s : UiState)
    (e : UiEvent) (req : BuyPairRequest) (h : req ∈ (uiStep p s e).2) :
    req.skip_clob_sell = false := by
  cases e with
  | setAmount parsed =>
    simp only [uiStep] at h
    split at h <;> simp at h
  | clickConfirm =>
    simp only [uiStep] at h
    split at h
    · cases hh : handleBuyStart s.walletStatus p s.parsedAmount with
      | rejected msg =>
        rw [hh] at h
        simp at h
      | submitted r =>
        rw [hh] at h
        simp at h
        subst h
        exact handleBuyStart_submitted_skip _ _ _ _ hh
    · simp at h
  | fetchResolved out =>
    simp only [uiStep] at h
    split at h <;> simp at h
  | clickTryAgain =>
    simp only [uiStep] at h
    split at h <;> simp at h
  | walletRefresh st =>
    simp only [uiStep] at h
    simp at h

/-- The concrete submission from `sReady`: the emitted call list. -/
theorem uiStep_sReady_confirm :
    (uiStep samplePortfolio sReady .clickConfirm).2 =
      [buildBuyPairRequest samplePortfolio 10] := by
  simp only [uiStep]
  have hform : inputFormShown sReady = true := by
    simp [inputFormShown, sReady, needsUnlock, walletUnlocked, sampleStatus]
  have hamt : amountNum sReady.parsedAmount = 10 := by
    norm_num [sReady, amountNum]
  have hsb : hasSufficientBalance sReady.walletStatus 10 = true := by
    simp only [hasSufficientBalance, totalCost, sReady, sampleStatus, usdceBalance]
    norm_num
  have hmm : meetsMinimum (10 : ℚ) = true := by
    simp only [meetsMinimum, MIN_AMOUNT]
    norm_num
  have hcd : confirmDisabled sReady.walletStatus (amountNum sReady.parsedAmount) = false := by
    rw [hamt]
    simp [confirmDisabled, hsb, hmm]
  have hstart : handleBuyStart sReady.walletStatus samplePortfolio sReady.parsedAmount =
      .submitted (buildBuyPairRequest samplePortfolio 10) := by
    unfold handleBuyStart
    rw [hamt, hsb]
    simp
  rw [hform, hcd, hstart]
  simp

/-- Witness for C9: the request emitted from `sReady` on Confirm. -/
theorem c9_witness :
    buildBuyPairRequest samplePortfolio 10 ∈
      (uiStep samplePortfolio sReady .clickConfirm).2 ∧
    (buildBuyPairRequest samplePortfolio 10).skip_clob_sell = false :=
  ⟨by rw [uiStep_sReady_confirm]; exact List.mem_singleton_self _,
    c9_skip_clob_sell_always_false samplePortfolio sReady .clickConfirm
      (buildBuyPairRequest samplePortfolio 10)
      (by rw [uiStep_sReady_confirm]; exact List.mem_singleton_self _)⟩

/-- C10: an amount input parsing to `NaN` or `0` yields derived amount 0,
fails the minimum predicate, disables the Confirm button, and therefore a
click submits nothing: no request with `amount_per_position = 0` can
leave the input step. -/
theorem c10_zero_amount_never_submitted (parsed : Option ℚ)
    (status : Option WalletStatus) (p : Portfolio) (s : UiState)
    (hz : parsed = none ∨ parsed = some 0)
    (hs : s.parsedAmount = parsed) :
    amountNum parsed = 0 ∧
    meetsMinimum (amountNum parsed) = false ∧
    confirmDisabled status (amountNum parsed) = true ∧
    (uiStep p s .clickConfirm).2 = [] := by
  have h0 : amountNum parsed = 0 := by
    rcases hz with h | h <;> simp [h, amountNum]
  have hmm : meetsMinimum (amountNum parsed) = false := by
    rw [h0]
    unfold meetsMinimum MIN_AMOUNT
    norm_num
  have hcd : ∀ st, confirmDisabled st (amountNum parsed) = true := by
    intro st
    simp [confirmDisabled, hmm]
  refine ⟨h0, hmm, hcd status, ?_⟩
  have hs0 : amountNum s.parsedAmount = 0 := by rw [hs, h0]
  have hmm2 : meetsMinimum (amountNum s.parsedAmount) = false := by
    rw [hs0]
    unfold meetsMinimum MIN_AMOUNT
    norm_num
  simp [uiStep, confirmDisabled, hmm2]

/-- Witness for C10: an unparsable amount in state `sNaN`. -/
theorem c10_witness :
    amountNum none = 0 ∧
    meetsMinimum (amountNum none) = false ∧
    confirmDisabled (sampleStatus 100) (amountNum none) = true ∧
    (uiStep samplePortfolio sNaN .clickConfirm).2 = [] :=
  c10_zero_amount_never_submitted none (sampleStatus 100) samplePortfolio
    sNaN (Or.inl rfl) rfl

/-! ### Claims about the result presentation -/

/-- A trade result with `success = false` and a non-empty warnings
array: the cover leg's sell failed after its split committed. -/
def c3Result : TradeResult :=
  { success := false
    target := { split_tx := some "0xtarget", clob_order_id := some "ord-1", error := none }
    cover := { split_tx := some "0xcover", clob_order_id := none, error := some "sell failed" }
    total_spent := 20
    final_balances := { pol := 1, usdc_e := 80 }
    warnings := some ["position not fully hedged - you are holding unsold NO tokens for cover"] }

/-- C3 counterexample: a result with `success = false` and one warning
is routed to the error screen and rendered "Trade Failed" — not
"Partial Success" as the claim states. -/
theorem c3_counterexample :
    c3Result.success = false ∧
    hasWarnings c3Result = true ∧
    present (settleStep (.ok c3Result)) (some c3Result) = some .failed :=
  ⟨rfl, rfl, rfl⟩

/-- C3 amended: the rendered outcome is a function of the `success` flag
and the `warnings` array alone — `success = true` with warnings is
"Partial Success", `success = true` without warnings is full success,
and `success = false` is the failure screen regardless of warnings. -/
theorem c3_presentation_rule (tr : TradeResult) :
    present (settleStep (.ok tr)) (some tr) =
      some (if tr.success then
              (if hasWarnings tr then Presentation.partialSuccess
               else Presentation.fullSuccess)
            else Presentation.failed) := by
  cases htr : tr.success <;> simp [settleStep, present, htr]

/-- C4 counterexample: at balance 3 and amount 5 the amount meets the $5
minimum (no below-minimum indication is shown), and the rejection the
submission function produces is the insufficient-balance one. -/
theorem c4_counterexample :
    meetsMinimum (amountNum (some 5)) = true ∧
    minimumWarningShown (amountNum (some 5)) = false ∧
    handleBuyStart (sampleStatus 3) samplePortfolio (some 5) =
      .rejected "Insufficient USDC.e balance" := by
  have hm : meetsMinimum (amountNum (some 5)) = true := by
    norm_num [amountNum, meetsMinimum, MIN_AMOUNT]
  have hb : hasSufficientBalance (sampleStatus 3) (amountNum (some 5)) = false := by
    norm_num [hasSufficientBalance, totalCost, usdceBalance, sampleStatus, amountNum]
  refine ⟨hm, ?_, ?_⟩
  · simp [minimumWarningShown, hm]
  · simp [handleBuyStart, hb]

/-- C4 amended: at balance 3 and amount 5 the precondition rejection is
insufficient-balance (the amount meets the minimum), the balance check
is the one the submission function evaluates, and the button guard (which
lists the balance check first) is disabled; the outcome is a pure
function of the inputs, hence deterministic. -/
theorem c4_balance_rejection_at_3_5 :
    handleBuyStart (sampleStatus 3) samplePortfolio (some 5) =
      .rejected "Insufficient USDC.e balance" ∧
    meetsMinimum (amountNum (some 5)) = true ∧
    confirmDisabled (sampleStatus 3) (amountNum (some 5)) = true := by
  have hb : hasSufficientBalance (sampleStatus 3) (amountNum (some 5)) = false := by
    norm_num [hasSufficientBalance, totalCost, usdceBalance, sampleStatus, amountNum]
  refine ⟨?_, ?_, ?_⟩
  · simp [handleBuyStart, hb]
  · norm_num [amountNum, meetsMinimum, MIN_AMOUNT]
  · simp [confirmDisabled, hb]

/-! ### Claims about the modelled backend engine -/

/-- C6: when the target leg's split fails, the result records the error
on `target`, has no `target.split_tx`, excludes the target amount from
`total_spent` (only the cover leg's committed amount counts), and the
cover leg is still attempted with its outcome recorded independently of
the target environment. -/
theorem c6_target_split_failure (req : BuyPairRequest) (env : EngineEnv)
    (m : String) (h : env.target.splitResult = .err m) :
    (executePair req env).target.error = some m ∧
    (executePair req env).target.split_tx = none ∧
    (executePair req env).total_spent =
      legSpent (executeLeg env.cover req.skip_clob_sell) req.amount_per_position ∧
    (executePair req env).cover = executeLeg env.cover req.skip_clob_sell := by
  have ht : executeLeg env.target req.skip_clob_sell =
      { split_tx := none, clob_order_id := none, error := some m } := by
    unfold executeLeg
    rw [h]
  refine ⟨?_, ?_, ?_, ?_⟩ <;> simp [executePair, ht, legSpent]

/-- The request the sample portfolio submits at amount 10. -/
def sampleReq : BuyPairRequest := buildBuyPairRequest samplePortfolio 10

/-- An engine environment where the target split fails with a gas error
and the cover leg fully succeeds. -/
def c6Env : EngineEnv :=
  { target := { splitResult := .err "gas error", sellResult := .ok "ord-t" }
    cover := { splitResult := .ok "0xcover", sellResult := .ok "ord-c" }
    finalBalances := { pol := 1, usdc_e := 80 } }

/-- Witness for C6 in `c6Env`. -/
theorem c6_witness :
    c6Env.target.splitResult = .err "gas error" ∧
    ((executePair sampleReq c6Env).target.error = some "gas error" ∧
      (executePair sampleReq c6Env).target.split_tx = none ∧
      (executePair sampleReq c6Env).total_spent =
        legSpent (executeLeg c6Env.cover sampleReq.skip_clob_sell)
          sampleReq.amount_per_position ∧
      (executePair sampleReq c6Env).cover =
        executeLeg c6Env.cover sampleReq.skip_clob_sell) :=
  ⟨rfl, c6_target_split_failure sampleReq c6Env "gas error" rfl⟩

/-- C7: when both legs' split and sell succeed (so the sell was not
skipped), the result has `success = true`, no warnings, and
`total_spent = 2 * amount_per_position`. -/
theorem c7_full_success (req : BuyPairRequest) (env : EngineEnv)
    (t o t2 o2 : String)
    (h1 : env.target.splitResult = .ok t) (h2 : env.target.sellResult = .ok o)
    (h3 : env.cover.splitResult = .ok t2) (h4 : env.cover.sellResult = .ok o2)
    (h5 : req.skip_clob_sell = false) :
    (executePair req env).success = true ∧
    (executePair req env).warnings = none ∧
    hasWarnings (executePair req env) = false ∧
    (executePair req env).total_spent = 2 * req.amount_per_position := by
  have ht : executeLeg env.target req.skip_clob_sell =
      { split_tx := some t, clob_order_id := some o, error := none } := by
    unfold executeLeg
    rw [h1, h5, h2]
    simp
  have hc : executeLeg env.cover req.skip_clob_sell =
      { split_tx := some t2, clob_order_id := some o2, error := none } := by
    unfold executeLeg
    rw [h3, h5, h4]
    simp
  refine ⟨?_, ?_, ?_, ?_⟩ <;>
    simp [executePair, ht, hc, legWarning, legSpent, hasWarnings]
  ring

/-- An engine environment where both legs fully succeed. -/
def c7Env : EngineEnv :=
  { target := { splitResult := .ok "0xtarget", sellResult := .ok "ord-t" }
    cover := { splitResult := .ok "0xcover", sellResult := .ok "ord-c" }
    finalBalances := { pol := 1, usdc_e := 80 } }

/-- Witness for C7 in `c7Env`. -/
theorem c7_witness :
    c7Env.target.splitResult = .ok "0xtarget" ∧
    c7Env.target.sellResult = .ok "ord-t" ∧
    c7Env.cover.splitResult = .ok "0xcover" ∧
    c7Env.cover.sellResult = .ok "ord-c" ∧
    sampleReq.skip_clob_sell = false ∧
    ((executePair sampleReq c7Env).success = true ∧
      (executePair sampleReq c7Env).warnings = none ∧
      hasWarnings (executePair sampleReq c7Env) = false ∧
      (executePair sampleReq c7Env).total_spent =
        2 * sampleReq.amount_per_position) :=
  ⟨rfl, rfl, rfl, rfl, rfl,
    c7_full_success sampleReq c7Env "0xtarget" "ord-t" "0xcover" "ord-c"
      rfl rfl rfl rfl rfl⟩

/-! ### The caller-facing state machine (C5, C8) -/

/-- A disabled-button guard of `false` splits into its two checks. -/
theorem confirmDisabled_false {status : Option WalletStatus} {a : ℚ}
    (h : confirmDisabled status a = false) :
    hasSufficientBalance status a = true ∧ meetsMinimum a = true := by
  unfold confirmDisabled at h
  simp only [Bool.or_eq_false_iff, Bool.not_eq_false'] at h
  exact h

/-- The input form being shown forces the step to be `input`. -/
theorem inputFormShown_step {s : UiState} (h : inputFormShown s = true) :
    s.step = Step.input := by
  unfold inputFormShown at h
  simp only [Bool.and_eq_true, decide_eq_true_eq] at h
  exact h.1.1

/-- `settleStep` never lands on `executing`. -/
theorem settleStep_ne_executing (out : FetchOutcome) :
    settleStep out ≠ Step.executing := by
  cases out with
  | ok data => cases hd : data.success <;> simp [settleStep, hd]
  | httpError d => simp [settleStep]
  | networkFailure m => simp [settleStep]

/-- `executing` is entered only by a Confirm click from the input form
with both precondition checks passing. -/
theorem uiStep_executing_entry (p : Portfolio) (s : UiState) (e : UiEvent)
    (hnext : (uiStep p s e).1.step = Step.executing)
    (hne : s.step ≠ Step.executing) :
    e = UiEvent.clickConfirm ∧ s.step = Step.input ∧
    hasSufficientBalance s.walletStatus (amountNum s.parsedAmount) = true ∧
    meetsMinimum (amountNum s.parsedAmount) = true := by
  cases e with
  | setAmount parsed =>
    exfalso
    revert hnext
    simp only [uiStep]
    split <;> exact fun hnext => hne hnext
  | clickConfirm =>
    revert hnext
    simp only [uiStep]
    split
    case isTrue hguard =>
      cases hh : handleBuyStart s.walletStatus p s.parsedAmount with
      | rejected msg =>
        exact fun hnext => absurd hnext hne
      | submitted r =>
        intro _
        simp only [Bool.and_eq_true, Bool.not_eq_true'] at hguard
        rcases hguard with ⟨hform, hcd⟩
        rcases confirmDisabled_false hcd with ⟨hsb, hmm⟩
        exact ⟨trivial, inputFormShown_step hform, hsb, hmm⟩
    case isFalse =>
      exact fun hnext => absurd hnext hne
  | fetchResolved out =>
    exfalso
    revert hnext
    simp only [uiStep]
    split
    · exact fun hnext => settleStep_ne_executing out hnext
    · exact fun hnext => hne hnext
  | clickTryAgain =>
    exfalso
    revert hnext
    simp only [uiStep]
    split
    · intro hnext
      exact Step.noConfusion hnext
    · exact fun hnext => hne hnext
  | walletRefresh st =>
    exact absurd hnext hne

/-- A terminal step is entered only from `executing`. -/
theorem uiStep_terminal_entry (p : Portfolio) (s : UiState) (e : UiEvent)
    (hterm : isTerminal (uiStep p s e).1.step = true)
    (hsterm : isTerminal s.step = false) :
    s.step = Step.executing := by
  cases e with
  | setAmount parsed =>
    exfalso
    revert hterm
    simp only [uiStep]
    split <;> exact fun hterm => absurd hterm (by simp [hsterm])
  | clickConfirm =>
    exfalso
    revert hterm
    simp only [uiStep]
    split
    · cases hh : handleBuyStart s.walletStatus p s.parsedAmount with
      | rejected msg =>
        exact fun hterm => absurd hterm (by simp [hsterm])
      | submitted r =>
        intro hterm
        simp [isTerminal] at hterm
    · exact fun hterm => absurd hterm (by simp [hsterm])
  | fetchResolved out =>
    revert hterm
    simp only [uiStep]
    split
    case isTrue hguard =>
      intro _
      simp only [Bool.and_eq_true, decide_eq_true_eq] at hguard
      exact hguard.1
    case isFalse =>
      exact fun hterm => absurd hterm (by simp [hsterm])
  | clickTryAgain =>
    exfalso
    revert hterm
    simp only [uiStep]
    split
    · intro hterm
      simp [isTerminal] at hterm
    · exact fun hterm => absurd hterm (by simp [hsterm])
  | walletRefresh st =>
    exfalso
    revert hterm
    simp only [uiStep]
    exact fun hterm => absurd hterm (by simp [hsterm])

/-- From the error screen no event issues a trading call, and the only
way back to `input` is the Try Again click. -/
theorem uiStep_error_frozen (p : Portfolio) (s : UiState) (e : UiEvent)
    (herr : s.step = Step.error) :
    (uiStep p s e).2 = [] ∧
    ((uiStep p s e).1.step = Step.input → e = UiEvent.clickTryAgain) := by
  have hni : decide (s.step = Step.input) = false :=
    decide_eq_false (by rw [herr]; exact fun hc => Step.noConfusion hc)
  have hnx : decide (s.step = Step.executing) = false :=
    decide_eq_false (by rw [herr]; exact fun hc => Step.noConfusion hc)
  have hform : inputFormShown s = false := by
    unfold inputFormShown
    rw [hni]
    rfl
  cases e with
  | setAmount parsed =>
    constructor
    · simp only [uiStep]
      split <;> rfl
    · simp only [uiStep]
      split <;> intro hin <;> rw [herr] at hin <;> exact absurd hin (by simp)
  | clickConfirm =>
    constructor
    · simp [uiStep, hform]
    · simp only [uiStep, hform, Bool.false_and]
      simp only [if_neg (by simp : ¬ (false = true))]
      intro hin
      rw [herr] at hin
      exact absurd hin (by simp)
  | fetchResolved out =>
    constructor
    · simp [uiStep, hnx]
    · simp only [uiStep, hnx, Bool.false_and]
      simp only [if_neg (by simp : ¬ (false = true))]
      intro hin
      rw [herr] at hin
      exact absurd hin (by simp)
  | clickTryAgain =>
    constructor
    · simp only [uiStep]
      split <;> rfl
    · exact fun _ => rfl
  | walletRefresh st =>
    constructor
    · rfl
    · intro hin
      simp only [uiStep] at hin
      rw [herr] at hin
      exact absurd hin (by simp)

/-- C5: the caller-facing flow is `input → executing → terminal`:
`executing` is entered only by a Confirm click from the input form after
both precondition checks pass, a terminal screen (`success`, rendered as
full or partial success, or `error`) is reached only from `executing`,
and from `error` the machine issues no trading call and re-enters
`input` only through the explicit Try Again click — never by an implicit
retry. -/
theorem c5_state_machine (p : Portfolio) (s : UiState) (e : UiEvent) :
    ((uiStep p s e).1.step = Step.executing → s.step ≠ Step.executing →
      e = UiEvent.clickConfirm ∧ s.step = Step.input ∧
      hasSufficientBalance s.walletStatus (amountNum s.parsedAmount) = true ∧
      meetsMinimum (amountNum s.parsedAmount) = true) ∧
    (isTerminal (uiStep p s e).1.step = true → isTerminal s.step = false →
      s.step = Step.executing) ∧
    (s.step = Step.error →
      (uiStep p s e).2 = [] ∧
      ((uiStep p s e).1.step = Step.input → e = UiEvent.clickTryAgain)) :=
  ⟨fun hnext hne => uiStep_executing_entry p s e hnext hne,
    fun hterm hsterm => uiStep_terminal_entry p s e hterm hsterm,
    fun herr => uiStep_error_frozen p s e herr⟩

/-- The concrete submission from `sReady`: the next step is executing. -/
theorem uiStep_sReady_confirm_step :
    (uiStep samplePortfolio sReady .clickConfirm).1.step = Step.executing := by
  simp only [uiStep]
  have hform : inputFormShown sReady = true := by
    simp [inputFormShown, sReady, needsUnlock, walletUnlocked, sampleStatus]
  have hamt : amountNum sReady.parsedAmount = 10 := by
    norm_num [sReady, amountNum]
  have hsb : hasSufficientBalance sReady.walletStatus 10 = true := by
    simp only [hasSufficientBalance, totalCost, sReady, sampleStatus, usdceBalance]
    norm_num
  have hmm : meetsMinimum (10 : ℚ) = true := by
    simp only [meetsMinimum, MIN_AMOUNT]
    norm_num
  have hcd : confirmDisabled sReady.walletStatus (amountNum sReady.parsedAmount) = false := by
    rw [hamt]
    simp [confirmDisabled, hsb, hmm]
  have hstart : handleBuyStart sReady.walletStatus samplePortfolio sReady.parsedAmount =
      .submitted (buildBuyPairRequest samplePortfolio 10) := by
    unfold handleBuyStart
    rw [hamt, hsb]
    simp
  rw [hform, hcd, hstart]
  simp

/-- Witness for C5: Confirm from `sReady` enters executing with both
checks true, and the error screen only yields to Try Again. -/
theorem c5_witness :
    (UiEvent.clickConfirm = UiEvent.clickConfirm ∧
      sReady.step = Step.input ∧
      hasSufficientBalance sReady.walletStatus (amountNum sReady.parsedAmount) = true ∧
      meetsMinimum (amountNum sReady.parsedAmount) = true) ∧
    ((uiStep samplePortfolio sErrScreen .clickTryAgain).2 = [] ∧
      ((uiStep samplePortfolio sErrScreen .clickTryAgain).1.step = Step.input →
        UiEvent.clickTryAgain = UiEvent.clickTryAgain)) :=
  ⟨(c5_state_machine samplePortfolio sReady .clickConfirm).1
      (by rw [uiStep_sReady_confirm_step]) (by simp [sReady]),
    (c5_state_machine samplePortfolio sErrScreen .clickTryAgain).2.2 rfl⟩

/-- The state after the user clicks Try Again on the error screen and
the wallet hook's periodic refresh then delivers the current status. -/
def retryState (p : Portfolio) (s : UiState) (st : Option WalletStatus) : UiState :=
  (uiStep p (uiStep p s .clickTryAgain).1 (.walletRefresh st)).1

/-- From the error screen, Try Again followed by a refresh yields the
input form with the amount preserved and the freshly fetched status. -/
theorem retryState_eq (p : Portfolio) (s : UiState) (st : Option WalletStatus)
    (h : s.step = Step.error) :
    retryState p s st =
      { s with step := Step.input, errorMsg := none
               walletStatus := st, walletLoading := false } := by
  have hd : decide (s.step = Step.error) = true := decide_eq_true h
  unfold retryState
  simp only [uiStep, hd, if_true]

/-- The calls the second Confirm click issues, in closed form: exactly
one request when the freshly fetched status is unlocked and passes both
precondition checks on the unchanged amount, none otherwise. -/
theorem retry_confirm_calls (p : Portfolio) (s : UiState)
    (st : Option WalletStatus) (h : s.step = Step.error) :
    (uiStep p (retryState p s st) .clickConfirm).2 =
      if walletUnlocked st &&
          hasSufficientBalance st (amountNum s.parsedAmount) &&
          meetsMinimum (amountNum s.parsedAmount) then
        [buildBuyPairRequest p (amountNum s.parsedAmount)]
      else [] := by
  rw [retryState_eq p s st h]
  cases hu : walletUnlocked st <;>
  cases hsb : hasSufficientBalance st (amountNum s.parsedAmount) <;>
  cases hm : meetsMinimum (amountNum s.parsedAmount) <;>
    simp [uiStep, inputFormShown, needsUnlock, hu, hsb, hm, confirmDisabled,
      handleBuyStart]

/-- C8: after a failed execution, retrying with identical input performs
the precondition checks again against the balance current at the second
call: the retried state keeps the amount, carries the freshly fetched
status, behaves identically whatever the first call's status was, and
submits exactly when the current status is unlocked and passes the
balance and minimum checks. -/
theorem c8_retry_uses_current_balance (p : Portfolio) (sA sB : UiState)
    (st : Option WalletStatus)
    (hA : sA.step = Step.error) (hB : sB.step = Step.error)
    (hamt : sA.parsedAmount = sB.parsedAmount) :
    (retryState p sA st).parsedAmount = sA.parsedAmount ∧
    (retryState p sA st).walletStatus = st ∧
    (uiStep p (retryState p sA st) .clickConfirm).2 =
      (uiStep p (retryState p sB st) .clickConfirm).2 ∧
    ((uiStep p (retryState p sA st) .clickConfirm).2 ≠ [] ↔
      (walletUnlocked st = true ∧
        hasSufficientBalance st (amountNum sA.parsedAmount) = true ∧
        meetsMinimum (amountNum sA.parsedAmount) = true)) := by
  refine ⟨?_, ?_, ?_, ?_⟩
  · rw [retryState_eq p sA st hA]
  · rw [retryState_eq p sA st hA]
  · rw [retry_confirm_calls p sA st hA, retry_confirm_calls p sB st hB, hamt]
  · rw [retry_confirm_calls p sA st hA]
    cases hu : walletUnlocked st <;>
    cases hsb : hasSufficientBalance st (amountNum sA.parsedAmount) <;>
    cases hm : meetsMinimum (amountNum sA.parsedAmount) <;>
      simp [hu, hsb, hm]

/-- A second error-screen state with a different pre-retry status. -/
def sErrScreen2 : UiState :=
  { step := .error, parsedAmount := some 10, walletStatus := sampleStatus 7
    walletLoading := false, result := none
    errorMsg := some "gas error", pending := none }

/-- Witness for C8: two error states with different old balances retried
under the current status of balance 50. -/
theorem c8_witness :
    sErrScreen.step = Step.error ∧ sErrScreen2.step = Step.error ∧
    sErrScreen.parsedAmount = sErrScreen2.parsedAmount ∧
    ((retryState samplePortfolio sErrScreen (sampleStatus 50)).parsedAmount =
        sErrScreen.parsedAmount ∧
      (retryState samplePortfolio sErrScreen (sampleStatus 50)).walletStatus =
        sampleStatus 50 ∧
      (uiStep samplePortfolio
          (retryState samplePortfolio sErrScreen (sampleStatus 50))
          .clickConfirm).2 =
        (uiStep samplePortfolio
          (retryState samplePortfolio sErrScreen2 (sampleStatus 50))
          .clickConfirm).2 ∧
      ((uiStep samplePortfolio
          (retryState samplePortfolio sErrScreen (sampleStatus 50))
          .clickConfirm).2 ≠ [] ↔
        (walletUnlocked (sampleStatus 50) = true ∧
          hasSufficientBalance (sampleStatus 50)
            (amountNum sErrScreen.parsedAmount) = true ∧
          meetsMinimum (amountNum sErrScreen.parsedAmount) = true))) :=
  ⟨rfl, rfl, rfl,
    c8_retry_uses_current_balance samplePortfolio sErrScreen sErrScreen2
      (sampleStatus 50) rfl rfl rfl⟩

end PolyAlphaScan
